import Mathlib

/-!
Verification development for the d2ipy profiling/analysis core.

The Python source is shallowly embedded: dataframes become lists of named,
dtyped columns whose cells are optional values (`none` models a null/NaN
cell), floats become rationals, and Python methods become Lean functions.
A method that can raise is embedded as a function into `Except PyErr`;
a Python method body with no `return` statement yields `none` (Python's
`None`) as its value.  Pandas/numpy behaviours that the source relies on
(dtype-string comparison, `fillna`, `nunique`, linear-interpolation
quantiles, group-by aggregation with sorted keys, cross tabulation) are
embedded explicitly below, next to the function that uses them.
-/

/-- A cell value: integers (dtype int64), rationals (dtype float64),
strings (dtype object) and calendar dates (dtype datetime64[ns], stored as
year / month / day). -/
inductive Val
  | i (n : Int)
  | f (q : ℚ)
  | s (t : String)
  | d (y mo day : Nat)
deriving DecidableEq

/-- The column dtypes that occur in the repository. -/
inductive Dtype
  | int64
  | float64
  | object
  | datetime64ns
deriving DecidableEq

/-- Numpy dtype-against-string equality, for exactly the dtype strings the
source compares with.  `np.dtype('int') == np.int64` and `'O'` is the char
code of the object dtype, so both match; the string `"datetime"` is not a
valid numpy dtype string (`np.dtype('datetime')` is not understood), and
numpy's dtype `==` yields `False` for a string it cannot parse, so
`"datetime"` matches no dtype — in particular not `datetime64[ns]`. -/
def dtypeMatches : Dtype → String → Bool
  | .int64, "int64" => true
  | .int64, "int" => true
  | .float64, "float64" => true
  | .object, "object" => true
  | .object, "O" => true
  | .datetime64ns, "datetime64[ns]" => true
  | _, _ => false

/-- A named, dtyped column; `none` cells are nulls (NaN/NaT). -/
structure Col where
  name : String
  dtype : Dtype
  cells : List (Option Val)
deriving DecidableEq

/-- A dataframe: an ordered list of columns. -/
structure DF where
  cols : List Col
deriving DecidableEq

/-- Embeds `len(df)`: the number of rows (the common length of the columns;
an empty column list has zero rows). -/
def DF.nrows (df : DF) : Nat :=
  match df.cols with
  | [] => 0
  | c :: _ => c.cells.length

/-- Embeds `df[name]` as a lookup; `none` when the column is absent (a Python
`KeyError` at use sites). -/
def DF.getCol (df : DF) (name : String) : Option Col :=
  df.cols.find? (fun c => c.name == name)

/-- Embeds `df[name]` with a junk default for total contexts. -/
def DF.getColD (df : DF) (name : String) : Col :=
  (df.getCol name).getD { name := name, dtype := .object, cells := [] }

/-- Python errors the embedded methods can raise. -/
inductive PyErr
  | keyError (k : String)
  | attributeError
  | runtimeError
deriving DecidableEq

/-! ## Embedding of `profiling/descriptive_util.py` (class DescriptiveDetails) -/

/-- Embeds `fillna(0)` on one cell: a null is coerced to the sentinel `0`
(`0.0` on a float64 column, the Python int `0` otherwise; int64 columns
cannot hold nulls in pandas, and the source never hits the datetime null
case in the claims below, where it is version dependent). -/
def fillnaVal (dt : Dtype) (oc : Option Val) : Val :=
  match oc with
  | some v => v
  | none => match dt with
    | .float64 => .f 0
    | _ => .i 0

/-- One row of the column-metadata table built by
`DescriptiveDetails.get_col_meta`. -/
structure ColMeta where
  name : String
  dtype : Dtype
  non_null_count : Nat
  fill_rate : Option ℚ
  num_unique : Nat
  unique_rate : Option ℚ
  is_eligible : Bool
deriving DecidableEq

/-- The metadata of one column, for a table of `nr` rows:
`non_null_count = notna().sum()`, `fill_rate = non_null * 100 / len(df)`,
`num_unique = fillna(0).nunique()`, `unique_rate = num_unique * 100 / len(df)`
and the eligibility predicate of lines 153-157.  When `nr = 0` the two rate
divisions are `0/0`, which pandas propagates as NaN without raising; the
NaN is modelled as `none`. -/
def colMetaOf (nr : Nat) (c : Col) : ColMeta :=
  let nn : Nat := c.cells.countP (fun oc => oc.isSome)
  let nu : Nat := (c.cells.map (fillnaVal c.dtype)).dedup.length
  { name := c.name
    dtype := c.dtype
    non_null_count := nn
    fill_rate := if nr = 0 then none else some ((nn : ℚ) * 100 / (nr : ℚ))
    num_unique := nu
    unique_rate := if nr = 0 then none else some ((nu : ℚ) * 100 / (nr : ℚ))
    is_eligible := (nn != 0) && (nu != 1) && (nu != nn) }

/-- Embeds `DescriptiveDetails.get_col_meta`: the per-column metadata table. -/
def get_col_meta (df : DF) : List ColMeta :=
  df.cols.map (colMetaOf df.nrows)

/-- Embeds `DescriptiveDetails.get_eligible_cols`: the names of the columns whose
`is_eligible` flag is set. -/
def eligible_cols (df : DF) : List String :=
  ((get_col_meta df).filter (fun m => m.is_eligible)).map (fun m => m.name)

/-- The filtered table `self._df = self._df_full[self._eligible_cols]`:
the projection of the raw table onto its eligible columns. -/
def filteredOf (df : DF) : DF :=
  ⟨df.cols.filter (fun c => (eligible_cols df).contains c.name)⟩

/-- Embeds `self._num_cols` of `get_col_type`: eligible columns of dtype
`int64` or `float64`. -/
def num_cols (df : DF) : List String :=
  ((get_col_meta df).filter (fun m =>
    m.is_eligible && (dtypeMatches m.dtype "int64" || dtypeMatches m.dtype "float64"))).map
    (fun m => m.name)

/-- Embeds `self._obj_cols` of `get_col_type`: eligible columns of dtype object. -/
def obj_cols (df : DF) : List String :=
  ((get_col_meta df).filter (fun m =>
    dtypeMatches m.dtype "object" && m.is_eligible)).map (fun m => m.name)

/-- Embeds `self._dt_cols` of `get_col_type`: all `datetime64[ns]` columns,
with no eligibility filter. -/
def dt_cols (df : DF) : List String :=
  ((get_col_meta df).filter (fun m =>
    dtypeMatches m.dtype "datetime64[ns]")).map (fun m => m.name)

/-- Embeds `self._num_col_df = self._df_full[self._num_cols]` (the raw table
projected onto the numeric eligible columns; an empty dataframe when
there are none). -/
def num_col_df (df : DF) : DF :=
  ⟨df.cols.filter (fun c => (num_cols df).contains c.name)⟩

/-! ### Numeric per-column statistics (`get_descriptive_stat`) -/

/-- The numeric reading of a cell value (int64 and float64 cells). -/
def ratOfVal : Val → Option ℚ
  | .i n => some (n : ℚ)
  | .f q => some q
  | _ => none

/-- The non-null numeric values of a column, in row order ("skip-NA"). -/
def colRats (c : Col) : List ℚ :=
  c.cells.filterMap (fun oc => oc.bind ratOfVal)

/-- Ascending sort of a list of rationals. -/
def sortRats (xs : List ℚ) : List ℚ :=
  List.insertionSort (· ≤ ·) xs

/-- Linear interpolation into a sorted list at fractional rank `h`
(numpy/pandas `interpolation='linear'`): with `i = ⌊h⌋` and `g = h - i`,
the value is `s[i] + g * (s[i+1] - s[i])`, degenerating to `s[i]` at the
last index. -/
def interpAt (s : List ℚ) (h : ℚ) : ℚ :=
  let i : Nat := (⌊h⌋).toNat
  let g : ℚ := h - (i : ℚ)
  if i + 1 < s.length then s.getD i 0 + g * (s.getD (i + 1) 0 - s.getD i 0)
  else s.getD i 0

/-- Embeds `Series.quantile(p)` with linear interpolation: rank `p * (n - 1)`
into the sorted non-null values. -/
def quantileQ (p : ℚ) (xs : List ℚ) : ℚ :=
  interpAt (sortRats xs) (p * ((xs.length : ℚ) - 1))

/-- The descriptive bundle of one numeric column
(`get_descriptive_stat`, lines 192-217). -/
structure DescStats where
  min : ℚ
  max : ℚ
  range : ℚ
  p5 : ℚ
  p95 : ℚ
  p25 : ℚ
  p75 : ℚ
  iqr : ℚ
  median : ℚ
  mean : ℚ
deriving DecidableEq

/-- The statistics of `get_descriptive_stat` on one column's non-null
values: min/max skip nulls, the percentiles are linear-interpolation
quantiles, `IQR = percentile_75 - percentile_25` exactly as on line 203. -/
def descStatsOf (xs : List ℚ) : DescStats :=
  let s := sortRats xs
  let p25 := quantileQ (1/4) xs
  let p75 := quantileQ (3/4) xs
  { min := s.headD 0
    max := s.getLastD 0
    range := s.getLastD 0 - s.headD 0
    p5 := quantileQ (1/20) xs
    p95 := quantileQ (19/20) xs
    p25 := p25
    p75 := p75
    iqr := p75 - p25
    median := quantileQ (1/2) xs
    mean := xs.sum / (xs.length : ℚ) }

/-- Embeds `DescriptiveDetails.get_descriptive_stat`: guarded by
`len(self._num_col_df) > 0` (the row count of the numeric projection);
one bundle per numeric eligible column, else the empty mapping. -/
def get_descriptive_stat (df : DF) : List (String × DescStats) :=
  if 0 < (num_col_df df).nrows then
    (num_cols df).map (fun n => (n, descStatsOf (colRats (df.getColD n))))
  else []

/-! ### Quantile-family statistics (`get_quantile_stat`) -/

/-- The quantile-family bundle of one numeric column.  The sample variance
(ddof = 1, NaN below two values, modelled as `none`) and the mean absolute
deviation `mad` are exact rationals; the standard-deviation and skewness
entries of the source dictionary are the square-root based real values
`quantStd` / derived from `variance` below and carry no extra information. -/
structure QuantStats where
  mad : ℚ
  sum : ℚ
  variance : Option ℚ
deriving DecidableEq

/-- Sample variance with ddof = 1 in pandas' computational form
`(Σ x² - (Σ x)² / n) / (n - 1)`; NaN (`none`) for fewer than 2 values. -/
def sampleVar (xs : List ℚ) : Option ℚ :=
  if 2 ≤ xs.length then
    some (((xs.map (fun x => x ^ 2)).sum - xs.sum ^ 2 / (xs.length : ℚ)) /
      ((xs.length : ℚ) - 1))
  else none

/-- Mean absolute deviation `Series.mad()`: `Σ |x - mean| / n`. -/
def madOf (xs : List ℚ) : ℚ :=
  ((xs.map (fun x => |x - xs.sum / (xs.length : ℚ)|)).sum) / (xs.length : ℚ)

/-- The quantile-family statistics of one column's non-null values. -/
def quantStatsOf (xs : List ℚ) : QuantStats :=
  { mad := madOf xs, sum := xs.sum, variance := sampleVar xs }

/-- The standard deviation reported by pandas is the square root of the
sample variance (junk 0 for the NaN case). -/
noncomputable def quantStd (q : QuantStats) : ℝ :=
  Real.sqrt ((q.variance.getD 0 : ℚ) : ℝ)

/-- Embeds `DescriptiveDetails.get_quantile_stat`, with the same
`len(self._num_col_df) > 0` guard. -/
def get_quantile_stat (df : DF) : List (String × QuantStats) :=
  if 0 < (num_col_df df).nrows then
    (num_cols df).map (fun n => (n, quantStatsOf (colRats (df.getColD n))))
  else []

/-! ### Categorical and datetime per-column details -/

/-- A benign total order on cell values used for sorted group keys:
numbers by value, strings lexicographically, dates by calendar order,
with numbers before strings before dates. -/
def valLeB : Val → Val → Bool
  | .i a, .i b => a ≤ b
  | .i a, .f b => (a : ℚ) ≤ b
  | .f a, .i b => a ≤ (b : ℚ)
  | .f a, .f b => a ≤ b
  | .s a, .s b => a ≤ b
  | .d y mo day, .d y2 mo2 day2 =>
      y * 10000 + mo * 100 + day ≤ y2 * 10000 + mo2 * 100 + day2
  | .i _, _ => true
  | .f _, _ => true
  | .s _, .i _ => false
  | .s _, .f _ => false
  | .s _, .d _ _ _ => true
  | .d _ _ _, _ => false

/-- Sort cell values by `valLeB`. -/
def sortVals (vs : List Val) : List Val :=
  List.insertionSort (fun a b => valLeB a b = true) vs

/-- Embeds `Series.value_counts()`: distinct non-null values with their counts,
sorted by descending count. -/
def valueCounts (cells : List (Option Val)) : List (Val × Nat) :=
  let vs := cells.filterMap id
  List.insertionSort (fun a b => (b.2 ≤ a.2) = true)
    (vs.dedup.map (fun v => (v, vs.count v)))

/-- The categorical bundle of one object column
(`get_category_details`).  `sys.getsizeof` has no in-memory meaning here;
the informational `memory_size` entry is modelled by the cell count. -/
structure CatDetails where
  value_counts : List (Val × Nat)
  category_distribution : List (Val × ℚ)
  top_5_category : List (Val × Nat)
  memory_size : Nat
deriving DecidableEq

/-- Embeds `DescriptiveDetails.get_category_details`: one bundle per eligible
object column, computed over the filtered table. -/
def get_category_details (df : DF) : List (String × CatDetails) :=
  let fdf := filteredOf df
  (obj_cols df).map (fun n =>
    let c := fdf.getColD n
    let vc := valueCounts c.cells
    (n, { value_counts := vc
          category_distribution := vc.map (fun p => (p.1, (p.2 : ℚ) * 100 / (fdf.nrows : ℚ)))
          top_5_category := vc.take 5
          memory_size := c.cells.length }))

/-- Minimum of a list of values by `valLeB` (pandas `Series.min` skips
nulls; `none` models NaT on an empty column). -/
def valMin (vs : List Val) : Option Val :=
  (sortVals vs).head?

/-- Maximum of a list of values by `valLeB`. -/
def valMax (vs : List Val) : Option Val :=
  (sortVals vs).getLast?

/-- The calendar ordinal used to express a date range (`max - min` is a
pandas Timedelta; the claims never consume it, so the difference of
ordinals stands in for it). -/
def valOrd : Val → Int
  | .d y mo day => (y : Int) * 10000 + (mo : Int) * 100 + (day : Int)
  | _ => 0

/-- The date bundle of one datetime column (`get_date_details`). -/
structure DateDetails where
  column : String
  min_date : Option Val
  max_date : Option Val
  date_range : Option Int
  date_dist : List (Val × Nat)
  top_5_date : List (Val × Nat)
deriving DecidableEq

/-- Embeds `DescriptiveDetails.get_date_details`: iterates all datetime columns
but reads `self._df[col]` from the filtered table — a non-eligible
datetime column is absent there and raises a `KeyError`. -/
def get_date_details (df : DF) : Except PyErr (List DateDetails) :=
  let fdf := filteredOf df
  (dt_cols df).foldlM (fun acc n =>
    match fdf.getCol n with
    | none => .error (.keyError n)
    | some c =>
      let vs := c.cells.filterMap id
      .ok (acc ++ [{ column := n
                     min_date := valMin vs
                     max_date := valMax vs
                     date_range := do pure (valOrd (← valMax vs) - valOrd (← valMin vs))
                     date_dist := valueCounts c.cells
                     top_5_date := (valueCounts c.cells).take 5 }])) []

/-! ## Spec-side definitions for claim C1

These three predicates follow the words of the claim ("entirely null",
"entirely constant (single distinct value)", "entirely unique
(distinct_count == non_null_count)"), with `distinct_count` computed, as
the claim itself stipulates, after coercing nulls to the sentinel. -/

/-- The claim's `distinct_count`: distinct values after null coercion. -/
def specDistinctCount (c : Col) : Nat :=
  ((c.cells.map (fillnaVal c.dtype)).dedup).length

/-- The column is entirely null: every cell is a null. -/
def specEntirelyNull (c : Col) : Prop :=
  ∀ oc ∈ c.cells, oc = none

/-- The column is entirely constant: a single distinct value. -/
def specEntirelyConstant (c : Col) : Prop :=
  specDistinctCount c = 1

/-- The column is entirely unique: `distinct_count = non_null_count`. -/
def specEntirelyUnique (c : Col) : Prop :=
  specDistinctCount c = c.cells.countP (fun oc => oc.isSome)

/-! ## Embedding of `analysis/analysis_util.py` (class Analyzer)

The Analyzer stores its results as instance attributes that start out as
Python `None`; those attributes are `Option` fields here, and the bug
surface of the class — appending to an attribute that is still `None` —
shows up as an `attributeError`. -/

/-- One date-column distribution bundle of `date_distribution`.  Note the
source: `days` re-extracts `.dt.month` (line 100) and the derived
`_month` column re-extracts `.dt.year` (line 91). -/
structure DateDict where
  yrs : List (Val × Nat)
  months : List (Val × Nat)
  days : List (Val × Nat)
  month_yr : List (Val × Nat)
deriving DecidableEq

/-- Embeds `.dt.year` of a cell. -/
def dtYear : Val → Nat
  | .d y _ _ => y
  | _ => 0

/-- Embeds `.dt.month` of a cell. -/
def dtMonth : Val → Nat
  | .d _ mo _ => mo
  | _ => 0

/-- Two-digit zero padding for date stringification. -/
def pad2 (n : Nat) : String :=
  if n < 10 then "0" ++ toString n else toString n

/-- Embeds `str(.dt.date)` of a cell: `YYYY-MM-DD`. -/
def dtDateStr : Val → String
  | .d y mo day => toString y ++ "-" ++ pad2 mo ++ "-" ++ pad2 day
  | _ => ""

/-- The sum/mean/median/count/var aggregate of one group of one numeric
column, as produced by `groupby(...).agg(['sum','mean','median','count',
'var','std'])`: the statistics skip nulls, `count` counts non-null
values, `mean`/`median` are NaN (`none`) on an empty group and `var` is
the ddof-1 sample variance, NaN below two values.  The `std` entry of the
aggregate is the square root of `var` (`aggStd` below). -/
structure AggStats where
  sum : ℚ
  mean : Option ℚ
  median : Option ℚ
  count : Nat
  var : Option ℚ
deriving DecidableEq

/-- The aggregate statistics of one list of group values. -/
def aggStatsOf (xs : List ℚ) : AggStats :=
  { sum := xs.sum
    mean := if xs.length = 0 then none else some (xs.sum / (xs.length : ℚ))
    median := if xs.length = 0 then none else some (quantileQ (1/2) xs)
    count := xs.length
    var := sampleVar xs }

/-- The `std` column of the aggregate: the square root of `var`
(junk 0 for the NaN case). -/
noncomputable def aggStd (a : AggStats) : ℝ :=
  Real.sqrt ((a.var.getD 0 : ℚ) : ℝ)

/-- The sorted distinct non-null values of a column: the group keys of
`groupby` / the axis keys of `crosstab` (pandas sorts group keys). -/
def keysOf (cells : List (Option Val)) : List Val :=
  sortVals (cells.filterMap id).dedup

/-- The numeric values of column `vcells` on the rows where the grouping
column `kcells` holds the key `v`. -/
def groupVals (kcells vcells : List (Option Val)) (v : Val) : List ℚ :=
  (kcells.zip vcells).filterMap (fun p =>
    if p.1 = some v then p.2.bind ratOfVal else none)

/-- A group-by aggregate table: the sorted group keys and, per aggregated
numeric column, the per-group statistics in key order. -/
structure AggTable where
  keys : List Val
  tables : List (String × List AggStats)
deriving DecidableEq

/-- Embeds `df.groupby(key).agg(['sum','mean','median','count','var','std'])`:
raises `KeyError` when the grouping column is absent; groups are the
distinct non-null key values in ascending order; the aggregated columns
are the numeric (int64/float64) columns other than the key (pandas drops
the non-numeric nuisance columns for these aggregators). -/
def groupbyAgg (df : DF) (key : String) : Except PyErr AggTable :=
  match df.getCol key with
  | none => .error (.keyError key)
  | some kc =>
    let ks := keysOf kc.cells
    let numc := df.cols.filter (fun c =>
      c.name ≠ key ∧ (c.dtype = .int64 ∨ c.dtype = .float64))
    .ok { keys := ks
          tables := numc.map (fun c =>
            (c.name, ks.map (fun v => aggStatsOf (groupVals kc.cells c.cells v)))) }

/-- A contingency table `pd.crosstab(r, c)`: sorted distinct non-null row
and column keys, and the count of co-occurrences per key pair. -/
structure CrossTab where
  rowKeys : List Val
  colKeys : List Val
  counts : List (List Nat)
deriving DecidableEq

/-- Embeds `pd.crosstab(rcells, ccells)`. -/
def crosstab (rcells ccells : List (Option Val)) : CrossTab :=
  let rk := keysOf rcells
  let ck := keysOf ccells
  { rowKeys := rk
    colKeys := ck
    counts := rk.map (fun rv => ck.map (fun cv =>
      ((rcells.zip ccells).filter (fun p =>
        p.1 == some rv && p.2 == some cv)).length)) }

/-- The mutable state of an `Analyzer` instance; every result attribute
starts as Python `None`. -/
structure Analyzer where
  df : DF
  meta : List ColMeta
  filtered_df : DF
  date_cols : Option (List String)
  corr_matrix : Option (List (String × List (String × Option ℝ)) ×
                        List (String × List (String × Option ℝ)) ×
                        List (String × List (String × Option ℝ)))
  cov_matrix : Option (List (String × List (String × Option ℚ)))
  cat_analyzer : Option (List (String × CrossTab))
  date_category_analyzer : Option (List CrossTab)
  date_numeric_analyzer : Option (List AggTable)
  cat_num_analyzer : Option (List AggTable)
  cat_cat_analyzer : Option (List (String × CrossTab))

/-- Embeds `Analyzer.__init__`: builds the DescriptiveDetails state (metadata and
filtered table); every analysis attribute is `None`. -/
def mkAnalyzer (df : DF) : Analyzer :=
  { df := df
    meta := get_col_meta df
    filtered_df := filteredOf df
    date_cols := none
    corr_matrix := none
    cov_matrix := none
    cat_analyzer := none
    date_category_analyzer := none
    date_numeric_analyzer := none
    cat_num_analyzer := none
    cat_cat_analyzer := none }

/-! ### Correlation and covariance (`get_correlation`, `get_covariance`) -/

/-- The rows where both columns are non-null numeric: pandas correlation
and covariance are pairwise complete ("skip-NA per pair"). -/
def pairwiseComplete (xcells ycells : List (Option Val)) : List (ℚ × ℚ) :=
  (xcells.zip ycells).filterMap (fun p =>
    match p.1.bind ratOfVal, p.2.bind ratOfVal with
    | some a, some b => some (a, b)
    | _, _ => none)

/-- Centered second moment `Σ (x - mean x) * (y - mean y)` of a pair list
(the common numerator/denominator kernel of covariance and pearson). -/
def centeredDot (ps : List (ℚ × ℚ)) (fx fy : ℚ × ℚ → ℚ) : ℚ :=
  let n : ℚ := (ps.length : ℚ)
  let mx := (ps.map fx).sum / n
  let my := (ps.map fy).sum / n
  (ps.map (fun p => (fx p - mx) * (fy p - my))).sum

/-- Pearson correlation of a pair list: NaN (`none`) below two pairs or
at zero variance on either side. -/
noncomputable def pearsonOf (ps : List (ℚ × ℚ)) : Option ℝ :=
  let sxx := centeredDot ps Prod.fst Prod.fst
  let syy := centeredDot ps Prod.snd Prod.snd
  if ps.length < 2 ∨ sxx = 0 ∨ syy = 0 then none
  else some ((centeredDot ps Prod.fst Prod.snd : ℚ) / Real.sqrt ((sxx * syy : ℚ) : ℝ))

/-- Average rank of `x` within `l` (pandas ranks with average ties),
the transform under spearman correlation. -/
def avgRank (l : List ℚ) (x : ℚ) : ℚ :=
  (l.countP (fun y => y < x) : ℚ) + ((l.countP (fun y => y = x) : ℚ) + 1) / 2

/-- Spearman correlation: pearson correlation of the average ranks. -/
noncomputable def spearmanOf (ps : List (ℚ × ℚ)) : Option ℝ :=
  let xs := ps.map Prod.fst
  let ys := ps.map Prod.snd
  pearsonOf (ps.map (fun p => (avgRank xs p.1, avgRank ys p.2)))

/-- The unordered index pairs of a list. -/
def pairsOf : List α → List (α × α)
  | [] => []
  | x :: xs => xs.map (fun y => (x, y)) ++ pairsOf xs

/-- Kendall tau-b of a pair list: `(C - D) / sqrt((n0 - n1) (n0 - n2))`
over concordant/discordant pairs with tie corrections; NaN (`none`) when
a tie correction exhausts a side. -/
noncomputable def kendallOf (ps : List (ℚ × ℚ)) : Option ℝ :=
  let pp := pairsOf ps
  let conc : Int := pp.countP (fun q => 0 < (q.1.1 - q.2.1) * (q.1.2 - q.2.2))
  let disc : Int := pp.countP (fun q => (q.1.1 - q.2.1) * (q.1.2 - q.2.2) < 0)
  let n0 : Int := pp.length
  let n1 : Int := pp.countP (fun q => q.1.1 = q.2.1)
  let n2 : Int := pp.countP (fun q => q.1.2 = q.2.2)
  if ps.length < 2 ∨ n0 - n1 = 0 ∨ n0 - n2 = 0 then none
  else some (((conc - disc : Int) : ℝ) / Real.sqrt (((n0 - n1) * (n0 - n2) : Int) : ℝ))

/-- Embeds `df.corr(method)` over the numeric columns of the filtered table. -/
noncomputable def corrMatrixOf (df : DF) (entry : List (ℚ × ℚ) → Option ℝ) :
    List (String × List (String × Option ℝ)) :=
  let ncs := df.cols.filter (fun c => c.dtype = .int64 ∨ c.dtype = .float64)
  ncs.map (fun c => (c.name, ncs.map (fun c2 =>
    (c2.name, entry (pairwiseComplete c.cells c2.cells)))))

/-- Embeds `df.cov()`: pairwise-complete sample covariance (ddof = 1), NaN
(`none`) below two overlapping observations. -/
def covMatrixOf (df : DF) : List (String × List (String × Option ℚ)) :=
  let ncs := df.cols.filter (fun c => c.dtype = .int64 ∨ c.dtype = .float64)
  ncs.map (fun c => (c.name, ncs.map (fun c2 =>
    let ps := pairwiseComplete c.cells c2.cells
    (c2.name,
      if ps.length < 2 then none
      else some (centeredDot ps Prod.fst Prod.snd / ((ps.length : ℚ) - 1))))))

/-- Embeds `Analyzer.get_correlation` (lines 70-76): computes the three matrices
and stores them in `self.corr_matrix`, but the method body has no
`return` statement, so its Python value is `None`. -/
noncomputable def Analyzer.get_correlation (a : Analyzer) :
    Option (List (String × List (String × Option ℝ)) ×
            List (String × List (String × Option ℝ)) ×
            List (String × List (String × Option ℝ))) × Analyzer :=
  let m := (corrMatrixOf a.filtered_df pearsonOf,
            corrMatrixOf a.filtered_df spearmanOf,
            corrMatrixOf a.filtered_df kendallOf)
  (none, { a with corr_matrix := some m })

/-- Embeds `Analyzer.get_covariance` (lines 78-80): stores `self.cov_matrix`
and likewise returns `None`. -/
def Analyzer.get_covariance (a : Analyzer) :
    Option (List (String × List (String × Option ℚ))) × Analyzer :=
  (none, { a with cov_matrix := some (covMatrixOf a.filtered_df) })

/-! ### Date-derived feature expansion (`date_distribution`) -/

/-- The body of the `for col in self.date_cols` loop of
`date_distribution`: appends the four derived string columns `_yr`,
`_month` (from `.dt.year` again — the source defect on line 91), `_date`
and `_mon_yr` (the `_month` string, a slash, the `_yr` string) to the
copied table, extends `date_cols` with the four derived names, and
computes the year/month/"day"(month again, line 100)/month-year
distributions from the untouched filtered table. -/
def dateDistStep (orig : DF) (st : List String × DF × List DateDict) (col : String) :
    List String × DF × List DateDict :=
  let (dcs, fcopy, res) := st
  let base := (fcopy.getColD col).cells
  let yrCells := base.map (fun oc => oc.map (fun v => Val.s (toString (dtYear v))))
  let monthCells := base.map (fun oc => oc.map (fun v => Val.s (toString (dtYear v))))
  let dateCells := base.map (fun oc => oc.map (fun v => Val.s (dtDateStr v)))
  let monYrCells := (monthCells.zip yrCells).map (fun p =>
    match p.1, p.2 with
    | some (.s a), some (.s b) => some (Val.s (a ++ "/" ++ b))
    | _, _ => none)
  let fcopy2 : DF := ⟨fcopy.cols ++
    [{ name := col ++ "_yr", dtype := .object, cells := yrCells },
     { name := col ++ "_month", dtype := .object, cells := monthCells },
     { name := col ++ "_date", dtype := .object, cells := dateCells },
     { name := col ++ "_mon_yr", dtype := .object, cells := monYrCells }]⟩
  let origCells := (orig.getColD col).cells
  let yrs := valueCounts (origCells.map (fun oc => oc.map (fun v => Val.i (dtYear v))))
  let months := valueCounts (origCells.map (fun oc => oc.map (fun v => Val.i (dtMonth v))))
  let days := valueCounts (origCells.map (fun oc => oc.map (fun v => Val.i (dtMonth v))))
  let monYr := valueCounts (origCells.map (fun oc => oc.map (fun v =>
    Val.s (toString (dtMonth v) ++ "-" ++ toString (dtYear v)))))
  (dcs ++ [col ++ "_yr", col ++ "_month", col ++ "_date", col ++ "_mon_yr"],
   fcopy2,
   res ++ [{ yrs := yrs, months := months, days := days, month_yr := monYr }])

/-- Embeds `Analyzer.date_distribution` (lines 82-110): selects the date columns
by comparing the stored dtypes against the string `"datetime"` (which, per
`dtypeMatches`, matches no dtype), loops the feature derivation over them
on a copy of the filtered table, and returns the distribution bundles and
the augmented copy. -/
def Analyzer.date_distribution (a : Analyzer) :
    (List DateDict × DF) × Analyzer :=
  let dcols := ((a.meta.filter (fun m => dtypeMatches m.dtype "datetime")).map
    (fun m => m.name))
  let (dcs2, fcopy, res) := dcols.foldl (dateDistStep a.filtered_df)
    (dcols, a.filtered_df, [])
  ((res, fcopy), { a with date_cols := some dcs2 })

/-! ### Category-driven group analysis (`analyze_category`) -/

/-- The loop accumulator of `analyze_category`: the three buckets reset to
`[]` on entry, plus the two append targets `cat_analyzer` /
`date_category_analyzer` that the method does not reset and that are still
`None` on a fresh instance. -/
structure AcAcc where
  catNum : List AggTable
  catCat : List (String × CrossTab)
  dateNum : List AggTable
  catAn : Option (List (String × CrossTab))
  dateCatAn : Option (List CrossTab)

/-- One iteration of the `for col in filtered_df` loop of
`analyze_category` (lines 126-145): the grouping column is skipped; an
object column outside `date_cols` produces a crosstab that is appended to
`cat_analyzer` under the key `"<grouping> : <other>"` — an
`AttributeError` when that attribute is still `None`; an int64 column
appends the whole-frame group-by aggregate to `cat_num_analyzer`; a
`date_cols` member re-dispatches on object/int dtype into the date
buckets. -/
def acStep (fdf : DF) (dcols : List String) (colName : String)
    (acc : AcAcc) (c : Col) : Except PyErr AcAcc :=
  if c.name = colName then .ok acc
  else if dtypeMatches c.dtype "O" && !(dcols.contains c.name) then
    match fdf.getCol colName with
    | none => .error (.keyError colName)
    | some gc =>
      let t := crosstab gc.cells c.cells
      match acc.catAn with
      | none => .error .attributeError
      | some l => .ok { acc with catAn := some (l ++ [(colName ++ " : " ++ c.name, t)]) }
  else if dtypeMatches c.dtype "int64" then
    match groupbyAgg fdf colName with
    | .error e => .error e
    | .ok t => .ok { acc with catNum := acc.catNum ++ [t] }
  else if dcols.contains c.name then
    if dtypeMatches c.dtype "O" then
      match fdf.getCol colName with
      | none => .error (.keyError colName)
      | some gc =>
        let t := crosstab gc.cells c.cells
        match acc.dateCatAn with
        | none => .error .attributeError
        | some l => .ok { acc with dateCatAn := some (l ++ [t]) }
    else if dtypeMatches c.dtype "int" then
      match groupbyAgg fdf colName with
      | .error e => .error e
      | .ok t => .ok { acc with dateNum := acc.dateNum ++ [t] }
    else .ok acc
  else .ok acc

/-- The `analyze_category` loop over the column list: the step function
threaded through the columns, stopping at the first raised error. -/
def acLoop (fdf : DF) (dcols : List String) (colName : String)
    (cols : List Col) (acc : AcAcc) : Except PyErr AcAcc :=
  cols.foldlM (acStep fdf dcols colName) acc

/-- Embeds `Analyzer.analyze_category` (lines 112-146): re-runs
`date_distribution` for the (augmented) frame, resets the three returned
buckets to `[]`, loops over the frame's columns, and returns
`(cat_num_analyzer, cat_cat_analyzer, date_numeric_analyzer)` — note the
crosstabs of the first branch go to the never-initialised `cat_analyzer`,
not to the returned `cat_cat_analyzer`. -/
def Analyzer.analyze_category (a : Analyzer) (colName : String) :
    Except PyErr ((List AggTable × List (String × CrossTab) × List AggTable) × Analyzer) :=
  let ((_, fdf), a1) := a.date_distribution
  let dcols := a1.date_cols.getD []
  match acLoop fdf dcols colName fdf.cols
      { catNum := [], catCat := [], dateNum := [],
        catAn := a1.cat_analyzer, dateCatAn := a1.date_category_analyzer } with
  | .error e => .error e
  | .ok acc =>
    .ok ((acc.catNum, acc.catCat, acc.dateNum),
      { a1 with cat_num_analyzer := some acc.catNum
                cat_cat_analyzer := some acc.catCat
                date_numeric_analyzer := some acc.dateNum
                cat_analyzer := acc.catAn
                date_category_analyzer := acc.dateCatAn })

/-! ### Decile bucketing (`decile_numeric_analysis`) -/

/-- Embeds `pd.cut(values, bins=10, labels=False)` on one cell: equal-width
binning over `[min, max]` with right-closed intervals (the left edge is
stretched to include the minimum); nulls stay null. -/
def cutLabel (mn mx x : ℚ) : Nat :=
  if mx ≤ mn then 0
  else if x ≤ mn then 0
  else min 9 ((⌈(x - mn) * 10 / (mx - mn)⌉).toNat - 1)

/-- Embeds `pd.cut` over a column: the per-cell decile labels. -/
def cutCells (cells : List (Option Val)) : List (Option Val) :=
  let xs := cells.filterMap (fun oc => oc.bind ratOfVal)
  let mn := (sortRats xs).headD 0
  let mx := (sortRats xs).getLastD 0
  cells.map (fun oc => (oc.bind ratOfVal).map (fun x => Val.i (cutLabel mn mx x)))

/-- Embeds `Analyzer.decile_numeric_analysis` (lines 161-174): adds the decile
label column to a local copy of the filtered table, then calls
`analyze_category` on `self` with the synthetic column name — but
`analyze_category` rebuilds its frame from `self.filtered_df`, which the
local copy never reaches. -/
def Analyzer.decile_numeric_analysis (a : Analyzer) (col : String) :
    Except PyErr ((List AggTable × List (String × CrossTab) × List AggTable) × Analyzer) :=
  let fcopy : DF := ⟨a.filtered_df.cols ++
    [{ name := col ++ "_decile", dtype := .int64,
       cells := cutCells (a.filtered_df.getColD col).cells }]⟩
  let _ := fcopy
  a.analyze_category (col ++ "_decile")

/-! ## Embedding of `model/d2i_model.py` (ProfileModel and AnalysisModel) -/

/-- Whether an embedded method call returned normally (`true`) or raised
(`false`). -/
def exOk : Except PyErr α → Bool
  | .ok _ => true
  | .error _ => false

/-- The state a `ProfileModel` holds after `init_d2ipy`: the four stored
bundles. -/
structure ProfileState where
  desc_stat : List (String × DescStats)
  quantile_stat : List (String × QuantStats)
  cat_details : List (String × CatDetails)
  date_details : List DateDetails
deriving DecidableEq

/-- Embeds `ProfileModel.init_d2ipy`: recomputes and stores the four bundles; the
only step that can raise is `set_date_details` (a non-eligible datetime
column is missing from the filtered table). -/
def init_d2ipy (df : DF) : Except PyErr ProfileState :=
  match get_date_details df with
  | .error e => .error e
  | .ok dd =>
    .ok { desc_stat := get_descriptive_stat df
          quantile_stat := get_quantile_stat df
          cat_details := get_category_details df
          date_details := dd }

/-- The value bundles a `describe` mapping can hold. -/
inductive DescribeVal
  | quantileB (b : List (String × QuantStats))
  | descriptiveB (b : List (String × DescStats))
  | categoricalB (b : List (String × CatDetails))
  | dateB (b : List DateDetails)
deriving DecidableEq

/-- Embeds `ProfileModel.describe` (lines 117-139): reruns `init_d2ipy`, then
builds the result mapping keyed by bundle name for the four recognised
kind selectors; any other selector hits the bare `raise` (a
`RuntimeError`). -/
def describe (df : DF) (column_type : String) :
    Except PyErr (List (String × DescribeVal)) :=
  match init_d2ipy df with
  | .error e => .error e
  | .ok st =>
    if column_type = "all" then
      .ok [("quantile", .quantileB st.quantile_stat),
           ("descriptive", .descriptiveB st.desc_stat),
           ("categorical_column", .categoricalB st.cat_details),
           ("date_column", .dateB st.date_details)]
    else if column_type = "numeric" then
      .ok [("quantile", .quantileB st.quantile_stat),
           ("descriptive", .descriptiveB st.desc_stat)]
    else if column_type = "categorical" then
      .ok [("categorical_column", .categoricalB st.cat_details)]
    else if column_type = "date" then
      .ok [("date_column", .dateB st.date_details)]
    else .error .runtimeError

/-- The mutable state of an `AnalysisModel` instance. -/
structure AnalysisModel where
  analyzer : Analyzer
  filtered_df : DF
  corr_matrix : Option (List (String × List (String × Option ℝ)) ×
                        List (String × List (String × Option ℝ)) ×
                        List (String × List (String × Option ℝ)))
  cov_matrix : Option (List (String × List (String × Option ℚ)))
  date_df : Option DF
  date_dist : Option (List DateDict)
  cat_num_analyzer : Option (List AggTable)
  cat_cat_analyzer : Option (List (String × CrossTab))
  date_numeric_analyzer : Option (List AggTable)
  decile_cat_analysis : Option (List AggTable)
  decile_numeric_analysis : Option (List (String × CrossTab))
  decile_date_analysis : Option (List AggTable)

/-- Embeds `AnalysisModel.__init__` and `init_analyzer`: a fresh `Analyzer`, all
cached results `None`. -/
def mkAnalysisModel (df : DF) : AnalysisModel :=
  { analyzer := mkAnalyzer df
    filtered_df := filteredOf df
    corr_matrix := none
    cov_matrix := none
    date_df := none
    date_dist := none
    cat_num_analyzer := none
    cat_cat_analyzer := none
    date_numeric_analyzer := none
    decile_cat_analysis := none
    decile_numeric_analysis := none
    decile_date_analysis := none }

/-- Embeds `AnalysisModel.set_correlation`: stores the *return value* of
`Analyzer.get_correlation` — which is `None` — in `self._corr_matrix`. -/
noncomputable def AnalysisModel.set_correlation (m : AnalysisModel) : AnalysisModel :=
  let (r, a2) := m.analyzer.get_correlation
  { m with analyzer := a2, corr_matrix := r }

/-- Embeds `AnalysisModel.get_correlation` (lines 170-173): recompute, then
return the cached `_corr_matrix`. -/
noncomputable def AnalysisModel.get_correlation (m : AnalysisModel) :
    Option (List (String × List (String × Option ℝ)) ×
            List (String × List (String × Option ℝ)) ×
            List (String × List (String × Option ℝ))) × AnalysisModel :=
  let m2 := m.set_correlation
  (m2.corr_matrix, m2)

/-- Embeds `AnalysisModel.set_covariance`: stores the `None` return value of
`Analyzer.get_covariance` in `self._cov_matrix`. -/
def AnalysisModel.set_covariance (m : AnalysisModel) : AnalysisModel :=
  let (r, a2) := m.analyzer.get_covariance
  { m with analyzer := a2, cov_matrix := r }

/-- Embeds `AnalysisModel.get_covariance` (lines 179-182). -/
def AnalysisModel.get_covariance (m : AnalysisModel) :
    Option (List (String × List (String × Option ℚ))) × AnalysisModel :=
  let m2 := m.set_covariance
  (m2.cov_matrix, m2)

/-- The value shapes `get_category_analysis` can return. -/
inductive CatAnalysisValue
  | numericV (l : List AggTable)
  | categoricalV (l : List (String × CrossTab))
  | dateV (l : List AggTable)
  | allV (category_category : List (String × CrossTab))
         (category_numeric : List AggTable)
         (category_date : List AggTable)
deriving DecidableEq

/-- Embeds `AnalysisModel.get_category_analysis` (lines 202-218): always runs
`set_category_analysis` (i.e. `analyze_category`) first, then dispatches
on the kind selector; an unrecognised selector hits the bare `raise`. -/
def AnalysisModel.get_category_analysis (m : AnalysisModel)
    (colName typeAnalysis : String) :
    Except PyErr (CatAnalysisValue × AnalysisModel) :=
  match m.analyzer.analyze_category colName with
  | .error e => .error e
  | .ok ((cn, cc, dn), a2) =>
    let m2 := { m with
      analyzer := a2
      cat_num_analyzer := some cn
      cat_cat_analyzer := some cc
      date_numeric_analyzer := some dn }
    if typeAnalysis = "numeric" then .ok (.numericV cn, m2)
    else if typeAnalysis = "categorical" then .ok (.categoricalV cc, m2)
    else if typeAnalysis = "date" then .ok (.dateV dn, m2)
    else if typeAnalysis = "all" then .ok (.allV cc cn dn, m2)
    else .error .runtimeError

/-- The value shapes `get_decile_analysis` can return (note the source's
attribute naming: the first component of `decile_numeric_analysis` — the
numeric aggregates — lands in `decile_cat_analysis`, the second — the
always-empty categorical bucket — in `decile_numeric_analysis`). -/
inductive DecileValue
  | numericV (v : Option (List (String × CrossTab)))
  | categoricalV (v : Option (List AggTable))
  | dateV (v : Option (List AggTable))
  | allV (decile_category : Option (List AggTable))
         (decile_numeric : Option (List (String × CrossTab)))
         (decile_date : Option (List AggTable))
deriving DecidableEq

/-- Embeds `AnalysisModel.set_decile_analysis` (lines 228-230): runs the decile
analysis and caches its three buckets; if it raises, nothing is cached. -/
def AnalysisModel.set_decile_analysis (m : AnalysisModel) (col : String) :
    Except PyErr AnalysisModel :=
  match m.analyzer.decile_numeric_analysis col with
  | .error e => .error e
  | .ok ((a, b, c), a2) =>
    .ok { m with analyzer := a2
                 decile_cat_analysis := some a
                 decile_numeric_analysis := some b
                 decile_date_analysis := some c }

/-- Embeds `AnalysisModel.get_decile_analysis` (lines 232-247): a pure read of
the three cached attributes dispatched on the kind selector; the
`col_name` parameter is never used and nothing is recomputed; an
unrecognised selector hits the bare `raise`.  The instance is returned
unchanged alongside the value. -/
def AnalysisModel.get_decile_analysis (m : AnalysisModel)
    (colName typeAnalysis : String) :
    Except PyErr DecileValue × AnalysisModel :=
  ((if typeAnalysis = "numeric" then .ok (.numericV m.decile_numeric_analysis)
    else if typeAnalysis = "categorical" then .ok (.categoricalV m.decile_cat_analysis)
    else if typeAnalysis = "date" then .ok (.dateV m.decile_date_analysis)
    else if typeAnalysis = "all" then
      .ok (.allV m.decile_cat_analysis m.decile_numeric_analysis m.decile_date_analysis)
    else .error .runtimeError), m)

/-! ## Spec-side statistics for claim C4

These definitions follow the spec's words for the per-group aggregate
("correct sum / mean / median / count / variance / std_dev per group"):
the mean is the sum over the count, the median is the middle order
statistic (the average of the two middle ones at even length), and the
variance is the mean squared deviation from the mean with the ddof-1
denominator. -/

/-- Spec-side mean: the sum divided by the count. -/
def specMean (xs : List ℚ) : ℚ := xs.sum / (xs.length : ℚ)

/-- Spec-side median: the middle of the sorted values (the average of the
two middle ones at even length). -/
def specMedian (xs : List ℚ) : ℚ :=
  let s := sortRats xs
  let n := s.length
  if n % 2 = 1 then s.getD (n / 2) 0
  else (s.getD (n / 2 - 1) 0 + s.getD (n / 2) 0) / 2

/-- Spec-side sample variance: mean squared deviation from the mean with
denominator `n - 1`. -/
def specVar (xs : List ℚ) : ℚ :=
  ((xs.map (fun x => (x - specMean xs) ^ 2)).sum) / ((xs.length : ℚ) - 1)

/-! ## Concrete fixture tables for the claim theorems -/

/-- A three-row object column with values A, A, B. -/
def statusCol : Col :=
  { name := "status", dtype := .object,
    cells := [some (.s "A"), some (.s "A"), some (.s "B")] }

/-- A one-column three-row table (claim C1 witness). -/
def dfStatus : DF := ⟨[statusCol]⟩

/-- A table with one int64 column and zero rows (claim C2). -/
def dfZeroRows : DF := ⟨[{ name := "a", dtype := .int64, cells := [] }]⟩

/-- Two eligible object columns (claim C3): grouping column `g` and a
second categorical column `h`. -/
def dfTwoCat : DF :=
  ⟨[{ name := "g", dtype := .object,
      cells := [some (.s "a"), some (.s "a"), some (.s "b")] },
    { name := "h", dtype := .object,
      cells := [some (.s "x"), some (.s "y"), some (.s "y")] }]⟩

/-- A categorical grouping column and an eligible float64 column
(claim C4 counterexample). -/
def dfCatFloat : DF :=
  ⟨[{ name := "g", dtype := .object,
      cells := [some (.s "a"), some (.s "a"), some (.s "b")] },
    { name := "s", dtype := .float64,
      cells := [some (.f 2), some (.f 3), some (.f 3)] }]⟩

/-- The spec's six-row fixture (claim C4 witness): categorical `region`
against int64 `sales`. -/
def dfRegion : DF :=
  ⟨[{ name := "region", dtype := .object,
      cells := [some (.s "east"), some (.s "east"), some (.s "west"),
                some (.s "west"), some (.s "west"), some (.s "east")] },
    { name := "sales", dtype := .int64,
      cells := [some (.i 10), some (.i 20), some (.i 30),
                some (.i 30), some (.i 50), some (.i 10)] }]⟩

/-- The grouping column of `dfRegion`. -/
def regionCol : Col :=
  { name := "region", dtype := .object,
    cells := [some (.s "east"), some (.s "east"), some (.s "west"),
              some (.s "west"), some (.s "west"), some (.s "east")] }

/-- A table with one eligible datetime column (claim C5). -/
def dfDate : DF :=
  ⟨[{ name := "d", dtype := .datetime64ns,
      cells := [some (.d 2021 1 5), some (.d 2021 2 6), some (.d 2021 2 6)] }]⟩

/-- Two eligible int64 columns (claim C6). -/
def dfTwoNum : DF :=
  ⟨[{ name := "x", dtype := .int64,
      cells := [some (.i 1), some (.i 2), some (.i 2)] },
    { name := "y", dtype := .int64,
      cells := [some (.i 3), some (.i 5), some (.i 3)] }]⟩

/-- One eligible int64 column (claims C7 and C9 witness). -/
def dfOneNum : DF :=
  ⟨[{ name := "x", dtype := .int64,
      cells := [some (.i 1), some (.i 2), some (.i 2)] }]⟩

/-- An object column and an int64 column (claim C8 witness): both
eligible, no datetime column, and no second categorical column, so both
`init_d2ipy` and `analyze_category` succeed. -/
def dfMixOK : DF :=
  ⟨[{ name := "g", dtype := .object,
      cells := [some (.s "a"), some (.s "a"), some (.s "b")] },
    { name := "x", dtype := .int64,
      cells := [some (.i 1), some (.i 2), some (.i 2)] }]⟩

/-- Two eligible object columns (claim C8 counterexample): the second
categorical column makes `analyze_category` hit the `cat_analyzer`
defect. -/
def dfTwoCatB : DF :=
  ⟨[{ name := "u", dtype := .object,
      cells := [some (.s "p"), some (.s "p"), some (.s "q")] },
    { name := "v", dtype := .object,
      cells := [some (.s "r"), some (.s "s"), some (.s "s")] }]⟩

/-- One eligible float64 column (claim C10 witness): the decile analysis
succeeds (emptily) on it, so `set_decile_analysis` returns normally. -/
def dfOneFloat : DF :=
  ⟨[{ name := "z", dtype := .float64,
      cells := [some (.f 2), some (.f 3), some (.f 3)] }]⟩

/-! ## General lemmas about the embedding -/

/-- In a `≤`-sorted list of rationals, `getD` is monotone in the index. -/
lemma sorted_getD_mono {s : List ℚ} (hs : s.Sorted (· ≤ ·)) {i j : Nat}
    (hij : i ≤ j) (hj : j < s.length) : s.getD i 0 ≤ s.getD j 0 := by
  have hi : i < s.length := lt_of_le_of_lt hij hj
  rw [List.getD_eq_getElem?_getD, List.getElem?_eq_getElem hi,
      List.getD_eq_getElem?_getD, List.getElem?_eq_getElem hj]
  exact hs.rel_get_of_le (by exact_mod_cast hij)

/-- Embeds `interpAt` with its let-bindings spelled out. -/
lemma interpAt_eq (s : List ℚ) (h : ℚ) :
    interpAt s h =
      if (⌊h⌋).toNat + 1 < s.length then
        s.getD (⌊h⌋).toNat 0 +
          (h - ((⌊h⌋).toNat : ℚ)) * (s.getD ((⌊h⌋).toNat + 1) 0 - s.getD (⌊h⌋).toNat 0)
      else s.getD (⌊h⌋).toNat 0 := rfl

/-- Linear interpolation into a sorted list is monotone in the rank. -/
lemma interpAt_mono {s : List ℚ} (hs : s.Sorted (· ≤ ·))
    {h1 h2 : ℚ} (h0 : 0 ≤ h1) (h12 : h1 ≤ h2)
    (hn : h2 ≤ (s.length : ℚ) - 1) : interpAt s h1 ≤ interpAt s h2 := by
  have h02 : (0 : ℚ) ≤ h2 := le_trans h0 h12
  have hf1 : (0 : ℤ) ≤ ⌊h1⌋ := Int.floor_nonneg.mpr h0
  have hf2 : (0 : ℤ) ≤ ⌊h2⌋ := Int.floor_nonneg.mpr h02
  set i1 := (⌊h1⌋).toNat with hi1def
  set i2 := (⌊h2⌋).toNat with hi2def
  have ci1 : ((i1 : ℚ)) = ((⌊h1⌋ : ℤ) : ℚ) := by
    exact_mod_cast congrArg (fun z : ℤ => (z : ℚ)) (Int.toNat_of_nonneg hf1)
  have ci2 : ((i2 : ℚ)) = ((⌊h2⌋ : ℤ) : ℚ) := by
    exact_mod_cast congrArg (fun z : ℤ => (z : ℚ)) (Int.toNat_of_nonneg hf2)
  have lb1 : (i1 : ℚ) ≤ h1 := by rw [ci1]; exact Int.floor_le h1
  have ub1 : h1 < (i1 : ℚ) + 1 := by rw [ci1]; exact Int.lt_floor_add_one h1
  have lb2 : (i2 : ℚ) ≤ h2 := by rw [ci2]; exact Int.floor_le h2
  have imono : i1 ≤ i2 := Int.toNat_le_toNat (Int.floor_le_floor h12)
  have i2lt : i2 < s.length := by
    have hq : (i2 : ℚ) < (s.length : ℚ) := by linarith
    exact_mod_cast hq
  rw [interpAt_eq, interpAt_eq, ← hi1def, ← hi2def]
  rcases eq_or_lt_of_le imono with heq | hlt
  · rw [← heq]
    split_ifs with hbr
    · have hadj : s.getD i1 0 ≤ s.getD (i1 + 1) 0 :=
        sorted_getD_mono hs (Nat.le_succ i1) hbr
      nlinarith [hadj, h12]
    · exact le_refl _
  · have hbr1 : i1 + 1 < s.length := lt_of_le_of_lt (Nat.succ_le_of_lt hlt) i2lt
    have hadj1 : s.getD i1 0 ≤ s.getD (i1 + 1) 0 :=
      sorted_getD_mono hs (Nat.le_succ i1) hbr1
    have hmid : s.getD (i1 + 1) 0 ≤ s.getD i2 0 :=
      sorted_getD_mono hs (Nat.succ_le_of_lt hlt) i2lt
    have hv1 : s.getD i1 0 + (h1 - (i1 : ℚ)) * (s.getD (i1 + 1) 0 - s.getD i1 0) ≤
        s.getD (i1 + 1) 0 := by nlinarith [hadj1, ub1]
    rw [if_pos hbr1]
    split_ifs with hbr2
    · have hadj2 : s.getD i2 0 ≤ s.getD (i2 + 1) 0 :=
        sorted_getD_mono hs (Nat.le_succ i2) hbr2
      nlinarith [hadj2, lb2, hv1, hmid]
    · linarith [hv1, hmid]

/-- Sorting preserves the length. -/
lemma length_sortRats (xs : List ℚ) : (sortRats xs).length = xs.length :=
  (List.perm_insertionSort _ xs).length_eq

/-- Embeds `sortRats` sorts. -/
lemma sorted_sortRats (xs : List ℚ) : (sortRats xs).Sorted (· ≤ ·) :=
  List.sorted_insertionSort _ xs

/-- The linear-interpolation quantile is monotone in the probability. -/
lemma quantileQ_mono {xs : List ℚ} (hne : xs ≠ []) {p q : ℚ}
    (h0 : 0 ≤ p) (hpq : p ≤ q) (h1 : q ≤ 1) :
    quantileQ p xs ≤ quantileQ q xs := by
  have hlen : 1 ≤ xs.length := List.length_pos.mpr hne
  have hlq : (1 : ℚ) ≤ (xs.length : ℚ) := by exact_mod_cast hlen
  have hnn : (0 : ℚ) ≤ (xs.length : ℚ) - 1 := by linarith
  apply interpAt_mono (sorted_sortRats xs)
  · exact mul_nonneg h0 hnn
  · exact mul_le_mul_of_nonneg_right hpq hnn
  · rw [length_sortRats]
    exact mul_le_of_le_one_left hnn h1

/-- The interpolation quantile at probability one half is the textbook
median: the middle order statistic, averaging the two middle ones at even
length. -/
lemma quantile_half_eq_specMedian {xs : List ℚ} (hne : xs ≠ []) :
    quantileQ (1/2) xs = specMedian xs := by
  have hlen : 1 ≤ xs.length := List.length_pos.mpr hne
  rcases Nat.even_or_odd xs.length with he | ho
  · obtain ⟨k, hk⟩ := he
    have hk1 : 1 ≤ k := by omega
    obtain ⟨j, rfl⟩ : ∃ j, k = j + 1 := ⟨k - 1, by omega⟩
    have hhalf : (1/2 : ℚ) * ((xs.length : ℚ) - 1) = (j : ℚ) + 1/2 := by
      rw [hk]; push_cast; ring
    have hfl : ⌊(1/2 : ℚ) * ((xs.length : ℚ) - 1)⌋ = (j : ℤ) := by
      rw [hhalf]
      refine Int.floor_eq_iff.mpr ⟨by push_cast; linarith, by push_cast; linarith⟩
    have hbr : ((j : ℤ)).toNat + 1 < (sortRats xs).length := by
      rw [length_sortRats, hk]; omega
    have hmod : (sortRats xs).length % 2 = 0 := by rw [length_sortRats, hk]; omega
    have hdiv : (sortRats xs).length / 2 = j + 1 := by rw [length_sortRats, hk]; omega
    rw [quantileQ, interpAt_eq, hfl, if_pos hbr, hhalf]
    simp only [specMedian, hmod, hdiv]
    norm_num
    ring
  · obtain ⟨k, hk⟩ := ho
    have hhalf : (1/2 : ℚ) * ((xs.length : ℚ) - 1) = (k : ℚ) := by
      rw [hk]; push_cast; ring
    have hfl : ⌊(1/2 : ℚ) * ((xs.length : ℚ) - 1)⌋ = (k : ℤ) := by
      rw [hhalf]; exact Int.floor_natCast k
    have hmod : (sortRats xs).length % 2 = 1 := by rw [length_sortRats, hk]; omega
    have hdiv : (sortRats xs).length / 2 = k := by rw [length_sortRats, hk]; omega
    rw [quantileQ, interpAt_eq, hfl, hhalf]
    rw [show ((k : ℤ)).toNat = k from by simp]
    simp only [specMedian, hmod, hdiv]
    split_ifs with hbr <;> norm_num

/-- Expanding a sum of squared deviations from a constant. -/
lemma sum_map_sub_sq (xs : List ℚ) (c : ℚ) :
    (xs.map (fun x => (x - c) ^ 2)).sum =
      (xs.map (fun x => x ^ 2)).sum - 2 * c * xs.sum + (xs.length : ℚ) * c ^ 2 := by
  induction xs with
  | nil => simp
  | cons a l ih =>
    simp only [List.map_cons, List.sum_cons, List.length_cons, ih]
    push_cast
    ring

/-- The computational sample-variance form used in the embedding agrees
with the spec's mean-squared-deviation form. -/
lemma sampleVar_eq_specVar {xs : List ℚ} (h2 : 2 ≤ xs.length) :
    sampleVar xs = some (specVar xs) := by
  have hn : (xs.length : ℚ) ≠ 0 := Nat.cast_ne_zero.mpr (by omega)
  have hn1 : (xs.length : ℚ) - 1 ≠ 0 := by
    have h2q : (2 : ℚ) ≤ (xs.length : ℚ) := by exact_mod_cast h2
    intro hc; linarith
  rw [sampleVar, if_pos h2, specVar, sum_map_sub_sq, specMean]
  congr 1
  field_simp
  ring

/-- The sample variance is nonnegative. -/
lemma specVar_nonneg {xs : List ℚ} (h2 : 2 ≤ xs.length) : 0 ≤ specVar xs := by
  apply div_nonneg
  · apply List.sum_nonneg
    intro x hx
    obtain ⟨y, _, rfl⟩ := List.mem_map.mp hx
    positivity
  · have h2q : (2 : ℚ) ≤ (xs.length : ℚ) := by exact_mod_cast h2
    linarith

/-- A zero non-null count says exactly that every cell is null. -/
lemma countP_isSome_eq_zero_iff {l : List (Option Val)} :
    l.countP (fun oc => oc.isSome) = 0 ↔ ∀ oc ∈ l, oc = none := by
  rw [List.countP_eq_zero]
  constructor
  · intro h oc hoc
    cases oc with
    | none => rfl
    | some v =>
      have := h (some v) hoc
      simp at this
  · intro h oc hoc
    simp [h oc hoc]

/-! ## Claim theorems -/

/-- C1: for every raw table with at least one row, `get_col_meta` marks a
column eligible exactly when `non_null_count ≠ 0`, `num_unique ≠ 1` and
`num_unique ≠ non_null_count` (the distinct count taken after coercing
nulls to the sentinel); equivalently, `is_eligible` is false iff the
column is entirely null, entirely constant, or entirely unique. -/
theorem claim_C1 (df : DF) (c : Col) (hrows : 1 ≤ df.nrows) (hc : c ∈ df.cols) :
    colMetaOf df.nrows c ∈ get_col_meta df ∧
    ((colMetaOf df.nrows c).is_eligible = true ↔
      ((colMetaOf df.nrows c).non_null_count ≠ 0 ∧
       (colMetaOf df.nrows c).num_unique ≠ 1 ∧
       (colMetaOf df.nrows c).num_unique ≠ (colMetaOf df.nrows c).non_null_count)) ∧
    ((colMetaOf df.nrows c).is_eligible = false ↔
      (specEntirelyNull c ∨ specEntirelyConstant c ∨ specEntirelyUnique c)) := by
  refine ⟨List.mem_map_of_mem _ hc, ?_, ?_⟩
  · simp [colMetaOf, bne_iff_ne]
    tauto
  · rw [Bool.eq_false_iff]
    simp only [colMetaOf, specEntirelyNull, specEntirelyConstant, specEntirelyUnique,
      specDistinctCount, ne_eq, Bool.and_eq_true, bne_iff_ne, not_and_or, not_not]
    rw [countP_isSome_eq_zero_iff]
    tauto

/-- C1 witness: the eligibility characterisation evaluated on the
three-row status column. -/
theorem claim_C1_witness :
    (colMetaOf dfStatus.nrows statusCol).is_eligible = false ↔
      (specEntirelyNull statusCol ∨ specEntirelyConstant statusCol ∨
       specEntirelyUnique statusCol) :=
  (claim_C1 dfStatus statusCol (by decide) (by decide)).2.2

/-- C2 (code bug): on a zero-row table, `get_col_meta` does not raise an
insufficient-data error; it returns normally, with the NaN (0/0) fill and
distinct rates modelled as `none`. -/
theorem claim_C2_bug :
    get_col_meta dfZeroRows =
      [{ name := "a", dtype := .int64, non_null_count := 0, fill_rate := none,
         num_unique := 0, unique_rate := none, is_eligible := false }] := by
  decide

/-- C9: every descriptive bundle of a numeric column with at least one
non-null value has ordered percentiles p5 ≤ p25 ≤ median ≤ p75 ≤ p95 and
an IQR entry equal to p75 − p25, hence nonnegative. -/
theorem claim_C9 (df : DF) (nm : String) (st : DescStats)
    (hmem : (nm, st) ∈ get_descriptive_stat df)
    (hne : colRats (df.getColD nm) ≠ []) :
    st.p5 ≤ st.p25 ∧ st.p25 ≤ st.median ∧ st.median ≤ st.p75 ∧ st.p75 ≤ st.p95 ∧
    st.iqr = st.p75 - st.p25 ∧ 0 ≤ st.iqr := by
  rw [get_descriptive_stat] at hmem
  split_ifs at hmem with hguard
  · obtain ⟨n, hn, heq⟩ := List.mem_map.mp hmem
    obtain ⟨hn1, hn2⟩ := Prod.mk.injEq .. ▸ heq
    subst hn1
    subst hn2
    refine ⟨?_, ?_, ?_, ?_, rfl, ?_⟩
    · exact quantileQ_mono hne (by norm_num) (by norm_num) (by norm_num)
    · exact quantileQ_mono hne (by norm_num) (by norm_num) (by norm_num)
    · exact quantileQ_mono hne (by norm_num) (by norm_num) (by norm_num)
    · exact quantileQ_mono hne (by norm_num) (by norm_num) (by norm_num)
    · exact sub_nonneg.mpr (quantileQ_mono hne (by norm_num) (by norm_num) (by norm_num))
  · simp at hmem

/-- C9 witness: the percentile ordering evaluated on a concrete int64
column. -/
theorem claim_C9_witness :
    0 ≤ (descStatsOf (colRats (dfOneNum.getColD "x"))).iqr ∧
    (descStatsOf (colRats (dfOneNum.getColD "x"))).p5 ≤
      (descStatsOf (colRats (dfOneNum.getColD "x"))).p25 :=
  have h := claim_C9 dfOneNum "x" (descStatsOf (colRats (dfOneNum.getColD "x")))
    (by rw [show get_descriptive_stat dfOneNum =
              [("x", descStatsOf (colRats (dfOneNum.getColD "x")))] from rfl]
        exact List.mem_singleton.mpr rfl)
    (by decide)
  ⟨h.2.2.2.2.2, h.1⟩

/-- The string `"datetime"` matches no dtype (numpy cannot parse it as a
dtype, so dtype `==` is `False`). -/
lemma dtypeMatches_datetime (d : Dtype) : dtypeMatches d "datetime" = false := by
  cases d <;> rfl

/-- Because `"datetime"` matches no dtype, `date_distribution` selects no
columns: it derives nothing, returns no bundles, and hands back the
filtered table unchanged. -/
lemma date_distribution_eq (a : Analyzer) :
    a.date_distribution = (([], a.filtered_df), { a with date_cols := some [] }) := by
  have hf : a.meta.filter (fun m => dtypeMatches m.dtype "datetime") = [] := by
    apply List.filter_eq_nil_iff.mpr
    intro m _
    simp [dtypeMatches_datetime]
  simp [Analyzer.date_distribution, hf]

/-- C3 (code bug): on a table with a second eligible categorical column,
`analyze_category` computes the contingency table but then appends it to
`self.cat_analyzer`, which `__init__` set to `None` and nothing ever
reset — an `AttributeError` instead of a result. -/
theorem claim_C3_bug :
    Analyzer.analyze_category (mkAnalyzer dfTwoCat) "g" = .error .attributeError := by
  rfl

/-- C5 (code bug): on a table with a datetime column, `date_distribution`
derives no companion columns and returns no distributions at all, because
it selects date columns by comparing dtypes with the string `"datetime"`,
which the stored dtype `datetime64[ns]` never equals. -/
theorem claim_C5_bug :
    (Analyzer.date_distribution (mkAnalyzer dfDate)).1 = ([], filteredOf dfDate) ∧
    dt_cols dfDate = ["d"] ∧
    (filteredOf dfDate).cols.map (fun c => c.name) = ["d"] := by
  refine ⟨?_, by decide, by decide⟩
  rw [date_distribution_eq]
  rfl

/-- C6 (code bug): the facade's correlation and covariance getters return
`None` even though numeric columns exist, because the Analyzer methods
store the matrices as instance state and return `None`; the matrices do
end up in the analyzer state. -/
theorem claim_C6_bug :
    (AnalysisModel.get_correlation (mkAnalysisModel dfTwoNum)).1 = none ∧
    (AnalysisModel.get_covariance (mkAnalysisModel dfTwoNum)).1 = none ∧
    num_cols dfTwoNum = ["x", "y"] ∧
    ((Analyzer.get_correlation (mkAnalyzer dfTwoNum)).2).corr_matrix.isSome = true ∧
    ((Analyzer.get_covariance (mkAnalyzer dfTwoNum)).2).cov_matrix.isSome = true :=
  ⟨rfl, rfl, by decide, rfl, rfl⟩

/-- C7 (code bug): `decile_numeric_analysis` adds the binned column only
to a local copy, so the delegated `analyze_category` (which rebuilds its
frame from `self.filtered_df`) cannot find the synthetic grouping column
and raises a `KeyError`. -/
theorem claim_C7_bug :
    Analyzer.decile_numeric_analysis (mkAnalyzer dfOneNum) "x" =
      .error (.keyError "x_decile") := by
  rfl

/-- C8 counterexample: with a second eligible categorical column in the
table, `get_category_analysis` raises (an `AttributeError` out of
`analyze_category`) even for the valid kind selector `"all"`, so the
claim that every kind in the valid set returns a mapping is false. -/
theorem claim_C8_counterexample :
    AnalysisModel.get_category_analysis (mkAnalysisModel dfTwoCatB) "u" "all" =
      .error .attributeError := by
  rfl

/-- C8 (amended): an unrecognised kind selector always makes `describe`
and `get_category_analysis` raise and return no mapping; a kind in
all/numeric/categorical/date returns a mapping without raising provided
the underlying computation succeeds (`init_d2ipy` for `describe`,
`analyze_category` for the category analysis). -/
theorem claim_C8_amended :
    (∀ (df : DF) (k : String), k ≠ "all" → k ≠ "numeric" → k ≠ "categorical" →
      k ≠ "date" → exOk (describe df k) = false) ∧
    (∀ (df : DF) (col k : String), k ≠ "all" → k ≠ "numeric" → k ≠ "categorical" →
      k ≠ "date" →
      exOk (AnalysisModel.get_category_analysis (mkAnalysisModel df) col k) = false) ∧
    (∀ (df : DF) (k : String),
      (k = "all" ∨ k = "numeric" ∨ k = "categorical" ∨ k = "date") →
      exOk (init_d2ipy df) = true → exOk (describe df k) = true) ∧
    (∀ (df : DF) (col k : String),
      (k = "all" ∨ k = "numeric" ∨ k = "categorical" ∨ k = "date") →
      exOk ((mkAnalysisModel df).analyzer.analyze_category col) = true →
      exOk (AnalysisModel.get_category_analysis (mkAnalysisModel df) col k) = true) := by
  refine ⟨?_, ?_, ?_, ?_⟩
  · intro df k h1 h2 h3 h4
    rw [describe]
    cases hinit : init_d2ipy df with
    | error e => simp [exOk]
    | ok st => simp [h1, h2, h3, h4, exOk]
  · intro df col k h1 h2 h3 h4
    rw [AnalysisModel.get_category_analysis]
    cases hac : (mkAnalysisModel df).analyzer.analyze_category col with
    | error e => simp [exOk]
    | ok p =>
      obtain ⟨⟨cn, cc, dn⟩, a2⟩ := p
      simp [h1, h2, h3, h4, exOk]
  · intro df k hk hinitOk
    cases hinit : init_d2ipy df with
    | error e => rw [hinit] at hinitOk; simp [exOk] at hinitOk
    | ok st =>
      rw [describe, hinit]
      rcases hk with rfl | rfl | rfl | rfl <;> simp [exOk]
  · intro df col k hk hacOk
    cases hac : (mkAnalysisModel df).analyzer.analyze_category col with
    | error e => rw [hac] at hacOk; simp [exOk] at hacOk
    | ok p =>
      obtain ⟨⟨cn, cc, dn⟩, a2⟩ := p
      rw [AnalysisModel.get_category_analysis, hac]
      rcases hk with rfl | rfl | rfl | rfl <;> simp [exOk]

/-- C8 witness: on a table with one categorical and one int64 column the
valid selector `"numeric"` returns a mapping from `describe`, and the
invalid selector `"bogus"` makes both operations raise. -/
theorem claim_C8_witness :
    exOk (describe dfMixOK "numeric") = true ∧
    exOk (describe dfMixOK "bogus") = false ∧
    exOk (AnalysisModel.get_category_analysis (mkAnalysisModel dfMixOK) "g" "all") = true :=
  ⟨claim_C8_amended.2.2.1 dfMixOK "numeric" (Or.inr (Or.inl rfl)) (by decide),
   claim_C8_amended.1 dfMixOK "bogus" (by decide) (by decide) (by decide) (by decide),
   claim_C8_amended.2.2.2 dfMixOK "g" "all" (Or.inl rfl) (by decide)⟩

/-- C10: `get_decile_analysis` ignores its column argument and recomputes
nothing: it returns the instance unchanged, reads only the three cached
attributes (all `None` on a fresh model, so `None`-valued results), and
after a successful `set_decile_analysis` it returns exactly the cached
triple of that call. -/
theorem claim_C10 :
    (∀ (m : AnalysisModel) (ca cb k : String),
      (m.get_decile_analysis ca k).1 = (m.get_decile_analysis cb k).1 ∧
      (m.get_decile_analysis ca k).2 = m) ∧
    (∀ (df : DF) (c : String),
      ((mkAnalysisModel df).get_decile_analysis c "all").1 = .ok (.allV none none none) ∧
      ((mkAnalysisModel df).get_decile_analysis c "numeric").1 = .ok (.numericV none) ∧
      ((mkAnalysisModel df).get_decile_analysis c "categorical").1 =
        .ok (.categoricalV none) ∧
      ((mkAnalysisModel df).get_decile_analysis c "date").1 = .ok (.dateV none)) ∧
    (∀ (m : AnalysisModel) (col : String)
       (tr : List AggTable × List (String × CrossTab) × List AggTable),
      (m.analyzer.decile_numeric_analysis col).toOption.map Prod.fst = some tr →
      ∃ m2, m.set_decile_analysis col = .ok m2 ∧
        ∀ c : String,
          (m2.get_decile_analysis c "all").1 =
            .ok (.allV (some tr.1) (some tr.2.1) (some tr.2.2)) ∧
          (m2.get_decile_analysis c "numeric").1 = .ok (.numericV (some tr.2.1))) := by
  refine ⟨fun m ca cb k => ⟨rfl, rfl⟩, fun df c => ⟨rfl, rfl, rfl, rfl⟩, ?_⟩
  intro m col tr h
  cases hd : m.analyzer.decile_numeric_analysis col with
  | error e => rw [hd] at h; simp [Except.toOption] at h
  | ok p =>
    obtain ⟨⟨a, b, c0⟩, a2⟩ := p
    rw [hd] at h
    simp only [Except.toOption, Option.map_some'] at h
    obtain rfl : ((a, b, c0) : List AggTable × List (String × CrossTab) × List AggTable) = tr := by
      injection h
    refine ⟨{ m with
                analyzer := a2
                decile_cat_analysis := some a
                decile_numeric_analysis := some b
                decile_date_analysis := some c0 }, ?_, ?_⟩
    · rw [AnalysisModel.set_decile_analysis, hd]
    · intro c
      exact ⟨rfl, rfl⟩

/-- C10 witness: on a one-float-column table the decile analysis succeeds
with empty buckets, and the getter then returns exactly those cached
(empty) buckets. -/
theorem claim_C10_witness :
    ∃ m2, (mkAnalysisModel dfOneFloat).set_decile_analysis "z" = .ok m2 ∧
      ∀ c : String,
        (m2.get_decile_analysis c "all").1 =
          .ok (.allV (some []) (some []) (some [])) ∧
        (m2.get_decile_analysis c "numeric").1 = .ok (.numericV (some [])) :=
  claim_C10.2.2 (mkAnalysisModel dfOneFloat) "z" ([], [], []) (by decide)

/-- The `analyze_category` loop skips the grouping column itself. -/
lemma acStep_skip (fdf : DF) (dcols : List String) (colName : String)
    (acc : AcAcc) (c : Col) (h : c.name = colName) :
    acStep fdf dcols colName acc c = .ok acc := by
  unfold acStep
  rw [if_pos h]

/-- The `analyze_category` loop step on an int64 column other than the
grouping column appends the whole-frame group-by aggregate. -/
lemma acStep_int64 (fdf : DF) (colName : String) (acc : AcAcc) (c : Col)
    (t : AggTable) (hname : ¬(c.name = colName)) (hdt : c.dtype = .int64)
    (ht : groupbyAgg fdf colName = .ok t) :
    acStep fdf [] colName acc c = .ok { acc with catNum := acc.catNum ++ [t] } := by
  unfold acStep
  rw [if_neg hname, hdt]
  simp only [show dtypeMatches Dtype.int64 "O" = false from rfl,
    show dtypeMatches Dtype.int64 "int64" = true from rfl,
    Bool.false_and, if_true, if_false, ht]
  rfl

/-- The `analyze_category` loop step does nothing on a float64 column:
no branch of the dispatch recognises it. -/
lemma acStep_float64 (fdf : DF) (colName : String) (acc : AcAcc) (c : Col)
    (hname : ¬(c.name = colName)) (hdt : c.dtype = .float64) :
    acStep fdf [] colName acc c = .ok acc := by
  unfold acStep
  rw [if_neg hname, hdt]
  simp [show dtypeMatches Dtype.float64 "O" = false from rfl,
    show dtypeMatches Dtype.float64 "int64" = false from rfl]

/-- Over a frame whose non-grouping columns are all numeric (int64 or
float64), the `analyze_category` loop returns normally, appending one
copy of the whole-frame aggregate per int64 column and leaving every
other accumulator field unchanged. -/
lemma acLoop_numeric_only (fdf : DF) (colName : String) (t : AggTable)
    (ht : groupbyAgg fdf colName = .ok t) :
    ∀ (cols : List Col) (acc : AcAcc),
      (∀ c ∈ cols, c.name = colName ∨ c.dtype = .int64 ∨ c.dtype = .float64) →
      acLoop fdf [] colName cols acc =
        .ok { acc with catNum := acc.catNum ++
          ((cols.filter (fun c => c.name ≠ colName ∧ c.dtype = .int64)).map
            (fun _ => t)) } := by
  intro cols
  induction cols with
  | nil =>
    intro acc _
    simp only [acLoop, List.foldlM_nil, List.filter_nil, List.map_nil, List.append_nil]
    rfl
  | cons c cs ih =>
    intro acc hall
    have hcs : ∀ x ∈ cs, x.name = colName ∨ x.dtype = .int64 ∨ x.dtype = .float64 :=
      fun x hx => hall x (List.mem_cons_of_mem c hx)
    by_cases hname : c.name = colName
    · rw [show acLoop fdf [] colName (c :: cs) acc =
          acLoop fdf [] colName cs acc from by
        unfold acLoop
        rw [List.foldlM_cons, acStep_skip fdf [] colName acc c hname]
        rfl]
      rw [ih acc hcs]
      simp [List.filter_cons, hname]
    · rcases hall c (List.mem_cons_self c cs) with hc | hdt | hdt
      · exact absurd hc hname
      · rw [show acLoop fdf [] colName (c :: cs) acc =
            acLoop fdf [] colName cs { acc with catNum := acc.catNum ++ [t] } from by
          unfold acLoop
          rw [List.foldlM_cons, acStep_int64 fdf colName acc c t hname hdt ht]
          rfl]
        rw [ih _ hcs]
        simp [List.filter_cons, hname, hdt, List.append_assoc]
      · rw [show acLoop fdf [] colName (c :: cs) acc =
            acLoop fdf [] colName cs acc from by
          unfold acLoop
          rw [List.foldlM_cons, acStep_float64 fdf colName acc c hname hdt]
          rfl]
        rw [ih acc hcs]
        simp [List.filter_cons, hname, hdt]

/-- C4 (amended): only int64-typed numeric columns trigger the numeric
branch of `analyze_category` (float64 columns are silently skipped); on a
frame whose non-grouping columns are all numeric, the call succeeds and
its numeric bucket holds one copy of the whole-frame group-by aggregate
per int64 column. That aggregate has one row per distinct non-null
grouping value, and per group the stats are the correct sum, count,
mean = sum/count, middle-order-statistic median, ddof-1 sample variance
(NaN below two values) and std = sqrt(variance). -/
theorem claim_C4_amended (df : DF) (colName : String) (gc : Col)
    (hgc : (filteredOf df).getCol colName = some gc)
    (hall : ∀ c ∈ (filteredOf df).cols,
      c.name = colName ∨ c.dtype = .int64 ∨ c.dtype = .float64) :
    ∃ t : AggTable,
      groupbyAgg (filteredOf df) colName = .ok t ∧
      (Analyzer.analyze_category (mkAnalyzer df) colName).toOption.map Prod.fst =
        some (((filteredOf df).cols.filter (fun c =>
            c.name ≠ colName ∧ c.dtype = .int64)).map (fun _ => t), [], []) ∧
      t.keys.Perm ((gc.cells.filterMap id).dedup) ∧
      (∀ p ∈ t.tables, p.2.length = t.keys.length) ∧
      t.tables = ((filteredOf df).cols.filter (fun c =>
          c.name ≠ colName ∧ (c.dtype = .int64 ∨ c.dtype = .float64))).map
        (fun c => (c.name, t.keys.map (fun v => aggStatsOf (groupVals gc.cells c.cells v)))) ∧
      (∀ xs : List ℚ,
        (aggStatsOf xs).sum = xs.sum ∧
        (aggStatsOf xs).count = xs.length ∧
        (xs ≠ [] → (aggStatsOf xs).mean = some (specMean xs) ∧
          (aggStatsOf xs).median = some (specMedian xs)) ∧
        (2 ≤ xs.length → (aggStatsOf xs).var = some (specVar xs) ∧ 0 ≤ specVar xs ∧
          aggStd (aggStatsOf xs) = Real.sqrt ((specVar xs : ℚ) : ℝ))) := by
  have ht : groupbyAgg (filteredOf df) colName =
      .ok { keys := keysOf gc.cells,
            tables := ((filteredOf df).cols.filter (fun c =>
                c.name ≠ colName ∧ (c.dtype = .int64 ∨ c.dtype = .float64))).map
              (fun c => (c.name, (keysOf gc.cells).map
                (fun v => aggStatsOf (groupVals gc.cells c.cells v)))) } := by
    unfold groupbyAgg
    rw [hgc]
  refine ⟨_, ht, ?_, ?_, ?_, ?_, ?_⟩
  · have hdd := date_distribution_eq (mkAnalyzer df)
    have hloop := acLoop_numeric_only (filteredOf df) colName _ ht (filteredOf df).cols
      { catNum := [], catCat := [], dateNum := [], catAn := none, dateCatAn := none } hall
    unfold Analyzer.analyze_category
    rw [hdd]
    simp only [mkAnalyzer]
    dsimp only [Option.getD]
    rw [hloop]
    dsimp only [Except.toOption]
    simp only [Option.map_some', List.nil_append]
  · exact List.perm_insertionSort _ _
  · intro p hp
    obtain ⟨c, hc, rfl⟩ := List.mem_map.mp hp
    simp
  · rfl
  · intro xs
    refine ⟨rfl, rfl, ?_, ?_⟩
    · intro hne
      have hlen : ¬(xs.length = 0) := fun hc => hne (List.length_eq_zero.mp hc)
      constructor
      · simp [aggStatsOf, hlen, specMean]
      · have hmed := quantile_half_eq_specMedian hne
        simp only [aggStatsOf, hlen, if_false, ite_false]
        rw [show (1/2 : ℚ) = 2⁻¹ from by norm_num] at hmed
        simp [hmed]
    · intro h2
      have hv : (aggStatsOf xs).var = some (specVar xs) := sampleVar_eq_specVar h2
      refine ⟨hv, specVar_nonneg h2, ?_⟩
      unfold aggStd
      rw [hv]
      rfl

/-- C4 counterexample: next to the grouping column `g` there is one other
eligible numeric column, the float64 column `s`, yet the numeric bucket
of `analyze_category` comes back empty — no aggregate is produced for the
float numeric column, refuting the claim's "per numeric column". -/
theorem claim_C4_counterexample :
    (Analyzer.analyze_category (mkAnalyzer dfCatFloat) "g").toOption.map
      (fun r => r.1.1) = some [] ∧
    "s" ∈ num_cols dfCatFloat :=
  ⟨by decide, by decide⟩

/-- C4 witness: the amended claim instantiated on the spec's six-row
region/sales fixture. -/
theorem claim_C4_witness :
    ∃ t : AggTable,
      groupbyAgg (filteredOf dfRegion) "region" = .ok t ∧
      (Analyzer.analyze_category (mkAnalyzer dfRegion) "region").toOption.map Prod.fst =
        some (((filteredOf dfRegion).cols.filter (fun c =>
            c.name ≠ "region" ∧ c.dtype = .int64)).map (fun _ => t), [], []) ∧
      t.keys.Perm ((regionCol.cells.filterMap id).dedup) ∧
      (∀ p ∈ t.tables, p.2.length = t.keys.length) ∧
      t.tables = ((filteredOf dfRegion).cols.filter (fun c =>
          c.name ≠ "region" ∧ (c.dtype = .int64 ∨ c.dtype = .float64))).map
        (fun c => (c.name, t.keys.map (fun v =>
          aggStatsOf (groupVals regionCol.cells c.cells v)))) ∧
      (∀ xs : List ℚ,
        (aggStatsOf xs).sum = xs.sum ∧
        (aggStatsOf xs).count = xs.length ∧
        (xs ≠ [] → (aggStatsOf xs).mean = some (specMean xs) ∧
          (aggStatsOf xs).median = some (specMedian xs)) ∧
        (2 ≤ xs.length → (aggStatsOf xs).var = some (specVar xs) ∧ 0 ≤ specVar xs ∧
          aggStd (aggStatsOf xs) = Real.sqrt ((specVar xs : ℚ) : ℝ))) :=
  claim_C4_amended dfRegion "region" regionCol (by decide) (by decide)
